import Mathlib

/-!
Verification of the coverage-report ingestion subsystem
(`cover_agent/coverage_processor.py`).

Python strings are embedded as `List Char` (named `Chars`); the string
methods the source uses (`strip`, `startswith`, `endswith`, `split`,
`replace`, `int(...)`, `os.path.basename`, `os.path.relpath`) are given
executable structural definitions matching Python semantics on the
inputs the source feeds them.  Python floats are embedded as `ℚ`
(exact rational arithmetic).  Fallible code returns `Option`/`Except`.
-/

abbrev Chars := List Char

/-- Python `s.startswith(p)`. -/
def charsStartsWith (s p : Chars) : Bool := p.isPrefixOf s

/-- Python `s.endswith(p)`. -/
def charsEndsWith (s p : Chars) : Bool := p.isSuffixOf s

/-- Python `s.strip()`: remove leading and trailing whitespace. -/
def pyStrip (s : Chars) : Chars :=
  ((s.dropWhile Char.isWhitespace).reverse.dropWhile Char.isWhitespace).reverse

/-- Python `s.split(c)` for a one-character separator `c`
(the source only splits on `os.sep` and on `","`). -/
def splitChar (c : Char) : Chars → List Chars
  | [] => [[]]
  | a :: rest =>
    let r := splitChar c rest
    if a = c then [] :: r
    else
      match r with
      | [] => [[a]]
      | h :: t => (a :: h) :: t

/-- Fuel-indexed scanner behind `pyReplace`.  Each step consumes at
least one character of the string and exactly one unit of fuel, so
running it with fuel equal to the string length never exhausts the
fuel; the fuel only makes the recursion structural. -/
def pyReplaceAux (o n : Chars) : Nat → Chars → Chars
  | 0, s => s
  | fuel + 1, s =>
    match s with
    | [] => []
    | a :: rest =>
      if o.isPrefixOf (a :: rest) ∧ o ≠ [] then
        n ++ pyReplaceAux o n fuel (rest.drop (o.length - 1))
      else
        a :: pyReplaceAux o n fuel rest

/-- Python `s.replace(o, n)` for a non-empty pattern `o`: replace all
non-overlapping occurrences, scanning left to right.  (The source only
calls this with the pattern `"DA:"`.) -/
def pyReplace (o n s : Chars) : Chars := pyReplaceAux o n s.length s

/-- Digit-string to number; `none` when empty or a non-digit occurs. -/
def digitsToNat (ds : Chars) : Option Nat :=
  if ds = [] then none
  else
    ds.foldl
      (fun acc c =>
        match acc with
        | none => none
        | some m => if c.isDigit then some (m * 10 + (c.toNat - '0'.toNat)) else none)
      (some 0)

/-- Python `int(s)`: optional surrounding whitespace, optional sign,
decimal digits; `none` models the `ValueError` raised otherwise. -/
def pyToInt (s : Chars) : Option Int :=
  match pyStrip s with
  | '-' :: ds => (digitsToNat ds).map (fun m => -(m : Int))
  | '+' :: ds => (digitsToNat ds).map (fun m => (m : Int))
  | ds => (digitsToNat ds).map (fun m => (m : Int))

/-- Python `os.path.basename(p)` (POSIX): the part after the last `/`. -/
def pyBasename (p : Chars) : Chars := (splitChar '/' p).getLastD []

/-! ## Data model -/

/-- A Cobertura `<line>` element: attributes `number` and `hits`
(already converted by `int(...)` as the source does). -/
structure LineElem where
  number : Int
  hits : Int
deriving DecidableEq

/-- A Cobertura `<class>` element: optional `filename` attribute and
the `<line>` elements found beneath it (`cls.findall(".//line")`). -/
structure ClassElem where
  filename : Option Chars
  lines : List LineElem
deriving DecidableEq

/-- One value of the diff-cover report's `src_stats` mapping. -/
structure DiffRecord where
  covered_lines : List Int
  violation_lines : List Int
  percent_covered : ℚ
deriving DecidableEq

/-! ## Cobertura (XML) parser
(`parse_coverage_report_cobertura`, `parse_coverage_data_for_class`) -/

/-- `parse_coverage_data_for_class` (lines 172-196): classify each line
by hit count and compute the per-class percentage. -/
def parse_coverage_data_for_class (cls : ClassElem) : List Int × List Int × ℚ :=
  let lines_covered := (cls.lines.filter (fun l => decide (l.hits > 0))).map (·.number)
  let lines_missed := (cls.lines.filter (fun l => decide (¬ l.hits > 0))).map (·.number)
  let total_lines := lines_covered.length + lines_missed.length
  (lines_covered, lines_missed,
    if total_lines > 0 then (lines_covered.length : ℚ) / (total_lines : ℚ) else 0)

/-- The single-file-mode filter (lines 130-131):
`if name_attr and name_attr.endswith(filename)`. -/
def classMatches (filename : Chars) (cls : ClassElem) : Bool :=
  match cls.filename with
  | some na => (!na.isEmpty) && charsEndsWith na filename
  | none => false

/-- Shared aggregation (lines 136-142 and 158-168): union the raw
covered/missed line lists of the given classes, deduplicate with
covered winning over missed, and compute the ratio. -/
def aggregateClasses (classes : List ClassElem) : Finset Int × Finset Int × ℚ :=
  let all_covered := classes.flatMap (fun c => (parse_coverage_data_for_class c).1)
  let all_missed := classes.flatMap (fun c => (parse_coverage_data_for_class c).2.1)
  let covered_set := all_covered.toFinset
  let missed_set := all_missed.toFinset \ covered_set
  let total_lines := covered_set.card + missed_set.card
  (covered_set, missed_set,
    if total_lines ≠ 0 then (covered_set.card : ℚ) / (total_lines : ℚ) else 0)

/-- `parse_coverage_report_cobertura` with a (truthy) `filename`
argument (lines 126-142): aggregate every `<class>` whose filename
attribute ends with the target. -/
def parse_coverage_report_cobertura_single (report : List ClassElem) (filename : Chars) :
    Finset Int × Finset Int × ℚ :=
  aggregateClasses (report.filter (classMatches filename))

/-- First-occurrence deduplication, the key order of an
insertion-ordered Python dict. -/
def firstDedup {α : Type} [DecidableEq α] (l : List α) : List α :=
  l.foldl (fun acc a => if a ∈ acc then acc else acc ++ [a]) []

/-- The keys of `file_map` (lines 149-156): every truthy `filename`
attribute in document order, first occurrence kept. -/
def reportFilenames (report : List ClassElem) : List Chars :=
  firstDedup ((report.filterMap (fun c => c.filename)).filter (fun na => !na.isEmpty))

/-- `parse_coverage_report_cobertura` with `filename=None` (lines
144-170): group classes by exact filename attribute and aggregate each
group as in single-file mode. -/
def parse_coverage_report_cobertura_all (report : List ClassElem) :
    List (Chars × (Finset Int × Finset Int × ℚ)) :=
  (reportFilenames report).map
    (fun f => (f, aggregateClasses (report.filter (fun c => c.filename = some f))))

/-- Result type of `parse_coverage_report_cobertura`: a triple when a
truthy filename is supplied, a filename-keyed mapping otherwise. -/
inductive CoberturaResult where
  | single (covered missed : Finset Int) (ratio : ℚ)
  | all (data : List (Chars × (Finset Int × Finset Int × ℚ)))
deriving DecidableEq

/-- `parse_coverage_report_cobertura` (lines 110-170), including the
Python truthiness test `if filename:` (`None` and `""` both select
all-files mode). -/
def parse_coverage_report_cobertura (report : List ClassElem) (filename : Option Chars) :
    CoberturaResult :=
  match filename with
  | some f =>
    if f.isEmpty then .all (parse_coverage_report_cobertura_all report)
    else
      match parse_coverage_report_cobertura_single report f with
      | (c, m, r) => .single c m r
  | none => .all (parse_coverage_report_cobertura_all report)

/-! ## LCOV (text) parser (`parse_coverage_report_lcov`, lines 198-227) -/

/-- Errors the processor can raise: the `assert` in
`verify_report_update`, the `ValueError` of the dispatcher, a re-raised
I/O error from opening the LCOV file, and the uncaught
`ValueError`/`IndexError` a malformed `DA:` line raises. -/
inductive CoverageError where
  | assertionError (msg : Chars)
  | valueError (msg : Chars)
  | ioError (e : Chars)
  | malformedLine
deriving DecidableEq

/-- The nested loops of lines 204-218 as a state machine over the
file's lines.  `inside = true` is the inner loop (a record whose `SF:`
line ended with the target was entered); `end_of_record` breaks back to
the outer loop, which keeps scanning — several matching records
accumulate.  `none` models the uncaught exception a malformed `DA:`
line raises (`IndexError` when there is no comma, `ValueError`
from `int(...)`). -/
def lcovScan (filename : Chars) :
    List Chars → Bool → List Int → List Int → Option (List Int × List Int)
  | [], _, cov, mis => some (cov, mis)
  | l :: rest, false, cov, mis =>
    let s := pyStrip l
    if charsStartsWith s "SF:".data && charsEndsWith s filename then
      lcovScan filename rest true cov mis
    else
      lcovScan filename rest false cov mis
  | l :: rest, true, cov, mis =>
    let s := pyStrip l
    if charsStartsWith s "DA:".data then
      let body := pyReplace "DA:".data [] s
      let parts := splitChar ',' body
      match parts.get? 1 with
      | none => none
      | some hitsStr =>
        match pyToInt hitsStr, pyToInt (parts.headD []) with
        | some hits, some n =>
          if hits > 0 then lcovScan filename rest true (cov ++ [n]) mis
          else lcovScan filename rest true cov (mis ++ [n])
        | _, _ => none
    else if charsStartsWith s "end_of_record".data then
      lcovScan filename rest false cov mis
    else
      lcovScan filename rest true cov mis

/-- `parse_coverage_report_lcov` (lines 198-227).  The file argument is
the outcome of `open(self.file_path)`: `.error e` models the
`FileNotFoundError`/`IOError` labelled `e`, which the `except` clause
re-raises; `.ok` carries the file's lines. -/
def parse_coverage_report_lcov (lcovFile : Except Chars (List Chars)) (srcFilePath : Chars) :
    Except CoverageError (List Int × List Int × ℚ) :=
  match lcovFile with
  | .error e => .error (.ioError e)
  | .ok fileLines =>
    match lcovScan (pyBasename srcFilePath) fileLines false [] [] with
    | none => .error .malformedLine
    | some (lines_covered, lines_missed) =>
      let total_lines := lines_covered.length + lines_missed.length
      .ok (lines_covered, lines_missed,
        if total_lines > 0 then (lines_covered.length : ℚ) / (total_lines : ℚ) else 0)

/-- The messages `self.logger.error(...)` emits in
`parse_coverage_report_lcov` (line 221): exactly one, naming the file
path and the underlying cause, when opening/reading the file failed. -/
def lcov_error_logs (filePath : Chars) (lcovFile : Except Chars (List Chars)) : List Chars :=
  match lcovFile with
  | .error e => ["Error reading file ".data ++ filePath ++ ": ".data ++ e]
  | .ok _ => []

/-! ## diff-cover (JSON) parser (`parse_json_diff_coverage_report`,
lines 229-267) and the `os.path.relpath` it calls -/

/-- Split a path into its non-empty components
(`[x for x in p.split(sep) if x]` inside `posixpath.relpath`). -/
def splitCompsClean (p : Chars) : List Chars :=
  (splitChar '/' p).filter (fun c => !c.isEmpty)

/-- Lexical normalisation of an absolute path's component list, as
`posixpath.normpath` does inside `abspath`: drop `.`, resolve `..`
(at the root, `..` vanishes). -/
def normAbs (comps : List Chars) : List Chars :=
  comps.foldl
    (fun acc c =>
      if c = ".".data then acc
      else if c = "..".data then acc.dropLast
      else acc ++ [c])
    []

/-- Length of the common prefix of two component lists
(`posixpath.commonprefix` applied to the two lists). -/
def commonPrefixLen : List Chars → List Chars → Nat
  | a :: as, b :: bs => if a = b then 1 + commonPrefixLen as bs else 0
  | _, _ => 0

/-- `posixpath.relpath`'s final step: an empty relative component list
is rendered as the current directory `"."` (`if not rel_list: return
curdir`). -/
def relOrDot (rel : List Chars) : List Chars :=
  if rel.isEmpty then [".".data] else rel

/-- `os.path.relpath(src_file_path)` followed by
`.split(os.sep)` (lines 241-242), POSIX semantics.  `cwd` is the
current working directory as a normalised absolute component list (what
`os.getcwd()` yields).  A relative `src_file_path` is resolved against
`cwd` by `abspath`; the result is the relative component list, `["."]`
when the path is the working directory itself. -/
def srcRelativeComponents (cwd : List Chars) (srcFilePath : Chars) : List Chars :=
  let pathAbs :=
    normAbs ((if charsStartsWith srcFilePath ['/'] then [] else cwd) ++ splitCompsClean srcFilePath)
  let i := commonPrefixLen cwd pathAbs
  relOrDot (List.replicate (cwd.length - i) "..".data ++ pathAbs.drop i)

/-- Python's `lst[-n:]` for `n = 0, 1, 2, ...`. -/
def pyLastSlice {α : Type} (n : Nat) (l : List α) : List α :=
  if n = 0 then l else l.drop (l.length - n)

/-- The match test of lines 249-252: split the candidate key on the
path separator (no filtering) and compare its trailing components with
the target's relative components. -/
def diffKeyMatches (srcComps : List Chars) (key : Chars) : Bool :=
  pyLastSlice srcComps.length (splitChar '/' key) = srcComps

/-- The `for`/`break` loop of lines 247-254: the first entry of
`src_stats` (in iteration order) whose key matches, if any. -/
def findRelevantStats (srcComps : List Chars) :
    List (Chars × DiffRecord) → Option DiffRecord
  | [] => none
  | (k, stats) :: rest =>
    if diffKeyMatches srcComps k then some stats
    else findRelevantStats srcComps rest

/-- `parse_json_diff_coverage_report` (lines 229-267), taking the
decoded `src_stats` mapping as an iteration-ordered association list. -/
def parse_json_diff_coverage_report (cwd : List Chars) (srcFilePath : Chars)
    (srcStats : List (Chars × DiffRecord)) : List Int × List Int × ℚ :=
  let srcComps := srcRelativeComponents cwd srcFilePath
  match findRelevantStats srcComps srcStats with
  | some stats => (stats.covered_lines, stats.violation_lines, stats.percent_covered / 100)
  | none => ([], [], 0)

/-! ## Dispatcher (`parse_coverage_report`, lines 84-108), freshness
verifier (`verify_report_update`, lines 64-82) and
`process_coverage_report` (lines 50-62) -/

/-- The report data a `CoverageProcessor` can read, pre-decoded: the
`<class>` elements of the Cobertura XML, the outcome of opening the
LCOV file, the diff-cover `src_stats` mapping, and the working
directory `os.path.relpath` consults. -/
structure ReportEnv where
  coberturaClasses : List ClassElem
  lcovFile : Except Chars (List Chars)
  diffSrcStats : List (Chars × DiffRecord)
  cwd : List Chars

/-- What `parse_coverage_report` hands back on success: a covered/missed
triple (set-valued for Cobertura, list-valued for LCOV and diff-cover)
or, in all-files mode, a filename-keyed mapping. -/
inductive ParseOutcome where
  | single (covered missed : Finset Int) (ratio : ℚ)
  | tripleList (covered missed : List Int) (ratio : ℚ)
  | mapping (data : List (Chars × (Finset Int × Finset Int × ℚ)))
deriving DecidableEq

/-- Whether an outcome is the filename-keyed mapping form. -/
def ParseOutcome.isMapping : ParseOutcome → Bool
  | .mapping _ => true
  | _ => false

/-- Lift a `CoberturaResult` into a `ParseOutcome`. -/
def coberturaOutcome : CoberturaResult → ParseOutcome
  | .single c m r => .single c m r
  | .all d => .mapping d

/-- Lift the LCOV triple into a `ParseOutcome`. -/
def lcovOutcome (t : List Int × List Int × ℚ) : ParseOutcome :=
  .tripleList t.1 t.2.1 t.2.2

/-- `parse_coverage_report` (lines 84-108): dispatch on the feature
flag and the coverage type; unknown types raise
`ValueError(f"Unsupported coverage report type: {coverage_type}")`. -/
def parse_coverage_report (env : ReportEnv) (useReportCoverageFeatureFlag : Bool)
    (coverageType : Chars) (srcFilePath : Chars) : Except CoverageError ParseOutcome :=
  if useReportCoverageFeatureFlag then
    if coverageType = "cobertura".data then
      .ok (coberturaOutcome (parse_coverage_report_cobertura env.coberturaClasses none))
    else if coverageType = "lcov".data then
      (parse_coverage_report_lcov env.lcovFile srcFilePath).map lcovOutcome
    else
      .error (.valueError ("Unsupported coverage report type: ".data ++ coverageType))
  else
    if coverageType = "cobertura".data then
      .ok (coberturaOutcome
        (parse_coverage_report_cobertura env.coberturaClasses (some (pyBasename srcFilePath))))
    else if coverageType = "lcov".data then
      (parse_coverage_report_lcov env.lcovFile srcFilePath).map lcovOutcome
    else if coverageType = "diff_cover_json".data then
      .ok (match parse_json_diff_coverage_report env.cwd srcFilePath env.diffSrcStats with
        | (c, m, r) => .tripleList c m r)
    else
      .error (.valueError ("Unsupported coverage report type: ".data ++ coverageType))

/-- How `verify_report_update` (lines 64-82) can come out: the failed
`assert` (an `AssertionError` carrying the given message), a normal
return that logged the staleness warning (carrying the two compared
timestamps), or a silent normal return. -/
inductive VerifyResult where
  | fatal (msg : Chars)
  | warn (fileModTimeMs timeOfTestCommand : Int)
  | ok
deriving DecidableEq

/-- Whether the verifier raised. -/
def VerifyResult.isFatal : VerifyResult → Bool
  | .fatal _ => true
  | _ => false

/-- `verify_report_update` (lines 64-82).  `reportOnDisk` is
`os.path.exists(self.file_path)`; `fileModTimeMs` is
`int(round(os.path.getmtime(self.file_path) * 1000))`. -/
def verify_report_update (reportOnDisk : Bool) (fileModTimeMs : Int) (filePath : Chars)
    (timeOfTestCommand : Int) : VerifyResult :=
  if !reportOnDisk then
    .fatal ("Fatal: Coverage report \x22".data ++ filePath ++ "\x22 was not generated.".data)
  else if !(fileModTimeMs > timeOfTestCommand : Bool) then
    .warn fileModTimeMs timeOfTestCommand
  else
    .ok

/-- `process_coverage_report` (lines 50-62): run the verifier (whose
only raising path is the existence assert) and then parse. -/
def process_coverage_report (reportOnDisk : Bool) (fileModTimeMs : Int) (filePath : Chars)
    (timeOfTestCommand : Int) (env : ReportEnv) (useReportCoverageFeatureFlag : Bool)
    (coverageType : Chars) (srcFilePath : Chars) : Except CoverageError ParseOutcome :=
  match verify_report_update reportOnDisk fileModTimeMs filePath timeOfTestCommand with
  | .fatal m => .error (.assertionError m)
  | _ => parse_coverage_report env useReportCoverageFeatureFlag coverageType srcFilePath

/-- The spec's ratio formula (§3, §4.6): `|covered| / (|covered| +
|missed|)`, defined as `0` when both sets are empty. -/
def setRatio (c m : Finset Int) : ℚ :=
  if c.card + m.card = 0 then 0 else (c.card : ℚ) / ((c.card + m.card : ℕ) : ℚ)

/-- The invariant a diff-cover `src_stats` record has to satisfy by
itself for the returned triple to satisfy the spec's invariant: the two
line lists are duplicate-free and disjoint, and `percent_covered` is a
hundred times the set ratio. -/
def diffRecordOK (rec : DiffRecord) : Prop :=
  (rec.covered_lines ++ rec.violation_lines).Nodup ∧
  rec.percent_covered = 100 * setRatio rec.covered_lines.toFinset rec.violation_lines.toFinset

/-! ## Concrete fixtures (from the spec's §8 examples and small
variants used below) -/

/-- The spec's §8 Cobertura document: two `class filename="app.py"`
entries, one with line 1 hit and line 2 missed, the other with line 3
hit and line 4 missed. -/
def coberturaDocAppPy : List ClassElem :=
  [⟨some "app.py".data, [⟨1, 1⟩, ⟨2, 0⟩]⟩, ⟨some "app.py".data, [⟨3, 1⟩, ⟨4, 0⟩]⟩]

/-- An LCOV record reporting line 1 with both a positive and a zero hit
count. -/
def lcovFileDup : List Chars :=
  ["SF:app.py".data, "DA:1,1".data, "DA:1,0".data, "end_of_record".data]

/-- An LCOV file whose record for `app.py` has no data lines while a
second record for another file has one. -/
def lcovFileTwoRecords : List Chars :=
  ["SF:app.py".data, "end_of_record".data,
   "SF:other.py".data, "DA:5,1".data, "end_of_record".data]

/-- A one-entry diff-cover `src_stats` mapping keyed `app.py`. -/
def diffStatsAppPy : List (Chars × DiffRecord) :=
  [("app.py".data, ⟨[1], [2], 50⟩)]

/-! ## Helper lemmas -/

/-- The shared aggregation satisfies the spec's invariant: covered and
missed sets are disjoint and the ratio is the set ratio. -/
theorem aggregateClasses_spec (classes : List ClassElem) :
    Disjoint (aggregateClasses classes).1 (aggregateClasses classes).2.1 ∧
    (aggregateClasses classes).2.2 =
      setRatio (aggregateClasses classes).1 (aggregateClasses classes).2.1 := by
  simp only [aggregateClasses, setRatio]
  refine ⟨Finset.disjoint_sdiff, ?_⟩
  by_cases h :
      ((classes.flatMap (fun c => (parse_coverage_data_for_class c).1)).toFinset.card +
        ((classes.flatMap (fun c => (parse_coverage_data_for_class c).2.1)).toFinset \
          (classes.flatMap (fun c => (parse_coverage_data_for_class c).1)).toFinset).card) = 0 <;>
    simp [h]

/-- A found diff-cover record is an entry of the mapping. -/
theorem findRelevantStats_mem {srcComps : List Chars} :
    ∀ {l : List (Chars × DiffRecord)} {rec : DiffRecord},
      findRelevantStats srcComps l = some rec → ∃ k, (k, rec) ∈ l := by
  intro l
  induction l with
  | nil => intro rec h; simp [findRelevantStats] at h
  | cons p rest ih =>
    intro rec h
    rw [show p = (p.1, p.2) from rfl] at h
    simp only [findRelevantStats] at h
    by_cases hm : diffKeyMatches srcComps p.1 = true
    · rw [if_pos hm] at h
      obtain rfl : p.2 = rec := Option.some_injective _ h
      exact ⟨p.1, by simp⟩
    · rw [if_neg hm] at h
      obtain ⟨k, hk⟩ := ih h
      exact ⟨k, by simp [hk]⟩

/-! ## C1 -/

/-- C1 counterexample: the invariant does not hold for every accepted
input.  The LCOV parser accepts a record listing line 1 with hits 1 and
again with hits 0 and returns covered `[1]`, missed `[1]` — the two
sets are not disjoint.  The diff-cover parser takes its ratio verbatim
from `percent_covered` (30/100 here), which need not equal the set
ratio (2/3 here). -/
theorem C1_counterexample :
    parse_coverage_report_lcov (.ok lcovFileDup) "app.py".data = .ok ([1], [1], 1/2) ∧
    ¬ Disjoint ([1] : List Int).toFinset ([1] : List Int).toFinset ∧
    parse_json_diff_coverage_report ["x".data] "p/app.py".data
        [("p/app.py".data, ⟨[1, 3], [2], 30⟩)] = ([1, 3], [2], (30 : ℚ) / 100) ∧
    (30 : ℚ) / 100 ≠ setRatio ([1, 3] : List Int).toFinset ([2] : List Int).toFinset := by
  have hs : lcovScan (pyBasename "app.py".data) lcovFileDup false [] [] = some ([1], [1]) := by
    decide
  refine ⟨?_, ?_, by rfl, ?_⟩
  · simp only [parse_coverage_report_lcov, hs]
    norm_num
  · intro hd
    rw [disjoint_self] at hd
    exact absurd hd (by decide)
  · have h1 : (([1, 3] : List Int).toFinset.card = 2) := by decide
    have h2 : (([2] : List Int).toFinset.card = 1) := by decide
    rw [setRatio, h1, h2]
    norm_num

/-- C1 (amended): the three parsers return triples satisfying the
disjointness-and-ratio invariant under the following conditions.  For
the Cobertura single-file parser it holds unconditionally.  For the
LCOV parser it holds provided no line number is reported twice across
the matching records' `DA:` entries (the parser performs no
deduplication).  For the diff-cover parser the triple is taken verbatim
from the matched record, so the invariant holds provided every record
of the report satisfies it itself; with no matching record it holds
unconditionally. -/
theorem C1_returned_triple_invariant :
    (∀ (report : List ClassElem) (filename : Chars),
      Disjoint (parse_coverage_report_cobertura_single report filename).1
          (parse_coverage_report_cobertura_single report filename).2.1 ∧
        (parse_coverage_report_cobertura_single report filename).2.2 =
          setRatio (parse_coverage_report_cobertura_single report filename).1
            (parse_coverage_report_cobertura_single report filename).2.1) ∧
    (∀ (file : List Chars) (src : Chars) (cov mis : List Int) (q : ℚ),
      parse_coverage_report_lcov (.ok file) src = .ok (cov, mis, q) →
        (cov ++ mis).Nodup →
        Disjoint cov.toFinset mis.toFinset ∧ q = setRatio cov.toFinset mis.toFinset) ∧
    (∀ (cwd : List Chars) (src : Chars) (stats : List (Chars × DiffRecord)),
      (∀ p ∈ stats, diffRecordOK p.2) →
        Disjoint (parse_json_diff_coverage_report cwd src stats).1.toFinset
            (parse_json_diff_coverage_report cwd src stats).2.1.toFinset ∧
          (parse_json_diff_coverage_report cwd src stats).2.2 =
            setRatio (parse_json_diff_coverage_report cwd src stats).1.toFinset
              (parse_json_diff_coverage_report cwd src stats).2.1.toFinset) := by
  refine ⟨?_, ?_, ?_⟩
  · intro report filename
    exact aggregateClasses_spec (report.filter (classMatches filename))
  · intro file src cov mis q hparse hnd
    simp only [parse_coverage_report_lcov] at hparse
    rcases hscan : lcovScan (pyBasename src) file false [] [] with _ | ⟨c, m⟩ <;>
      rw [hscan] at hparse
    · exact absurd hparse (by simp)
    · simp only [Except.ok.injEq, Prod.mk.injEq] at hparse
      obtain ⟨rfl, rfl, rfl⟩ := hparse
      obtain ⟨hc, hm, hdisj⟩ := List.nodup_append.mp hnd
      refine ⟨List.disjoint_toFinset_iff_disjoint.mpr hdisj, ?_⟩
      rw [setRatio, List.toFinset_card_of_nodup hc, List.toFinset_card_of_nodup hm]
      split_ifs with h1 h2 <;> first | rfl | omega
  · intro cwd src stats hok
    simp only [parse_json_diff_coverage_report]
    rcases hf : findRelevantStats (srcRelativeComponents cwd src) stats with _ | rec
    · simp [setRatio]
    · obtain ⟨k, hk⟩ := findRelevantStats_mem hf
      obtain ⟨hnd, hpct⟩ := hok (k, rec) hk
      dsimp only at hnd hpct ⊢
      obtain ⟨hc, hm, hdisj⟩ := List.nodup_append.mp hnd
      refine ⟨List.disjoint_toFinset_iff_disjoint.mpr hdisj, ?_⟩
      rw [hpct, mul_div_cancel_left₀ _ (by norm_num : (100 : ℚ) ≠ 0)]

/-- C1 witness: the amended invariant applied to the spec's §8
Cobertura document, to a well-formed LCOV file whose matching record
has no data lines, and to an empty diff-cover mapping. -/
theorem C1_returned_triple_invariant_witness :
    (Disjoint (parse_coverage_report_cobertura_single coberturaDocAppPy "app.py".data).1
        (parse_coverage_report_cobertura_single coberturaDocAppPy "app.py".data).2.1 ∧
      (parse_coverage_report_cobertura_single coberturaDocAppPy "app.py".data).2.2 =
        setRatio (parse_coverage_report_cobertura_single coberturaDocAppPy "app.py".data).1
          (parse_coverage_report_cobertura_single coberturaDocAppPy "app.py".data).2.1) ∧
    (Disjoint ([] : List Int).toFinset ([] : List Int).toFinset ∧
      (0 : ℚ) = setRatio ([] : List Int).toFinset ([] : List Int).toFinset) ∧
    (Disjoint (parse_json_diff_coverage_report ["x".data] "app.py".data []).1.toFinset
        (parse_json_diff_coverage_report ["x".data] "app.py".data []).2.1.toFinset ∧
      (parse_json_diff_coverage_report ["x".data] "app.py".data []).2.2 =
        setRatio (parse_json_diff_coverage_report ["x".data] "app.py".data []).1.toFinset
          (parse_json_diff_coverage_report ["x".data] "app.py".data []).2.1.toFinset) :=
  ⟨C1_returned_triple_invariant.1 coberturaDocAppPy "app.py".data,
    C1_returned_triple_invariant.2.1 ["SF:app.py".data, "end_of_record".data] "app.py".data
      [] [] 0 rfl (by decide),
    C1_returned_triple_invariant.2.2 ["x".data] "app.py".data [] (by simp)⟩

/-! ## C2 -/

/-- C2 counterexample: with the feature flag enabled and coverage type
`lcov`, the parser does not aggregate across all files and does not
return a filename-keyed mapping.  On a report holding an empty record
for `app.py` and a record for `other.py` covering line 5, it returns
the single triple `([], [], 0)` for `app.py` — `other.py`'s data is
dropped and the outcome is not the mapping form. -/
theorem C2_counterexample :
    parse_coverage_report ⟨[], .ok lcovFileTwoRecords, [], []⟩ true "lcov".data "app.py".data =
      .ok (.tripleList [] [] 0) ∧
    Except.map ParseOutcome.isMapping
        (parse_coverage_report ⟨[], .ok lcovFileTwoRecords, [], []⟩ true "lcov".data
          "app.py".data) =
      .ok false := by
  constructor <;> rfl

/-- C2 (amended): with the feature flag enabled, the Cobertura parser
aggregates across all files in the report and returns a mapping keyed
by filename (one key per distinct truthy filename attribute); the LCOV
parser, however, ignores the flag entirely — it returns the same
single-file triple as in flag-off mode, never a mapping. -/
theorem C2_flag_granularity :
    (∀ (env : ReportEnv) (src : Chars),
      parse_coverage_report env true "cobertura".data src =
        .ok (.mapping (parse_coverage_report_cobertura_all env.coberturaClasses)) ∧
      (parse_coverage_report_cobertura_all env.coberturaClasses).map Prod.fst =
        reportFilenames env.coberturaClasses) ∧
    (∀ (env : ReportEnv) (src : Chars),
      parse_coverage_report env true "lcov".data src =
        (parse_coverage_report_lcov env.lcovFile src).map lcovOutcome ∧
      parse_coverage_report env true "lcov".data src =
        parse_coverage_report env false "lcov".data src) := by
  refine ⟨fun env src => ⟨rfl, ?_⟩, fun env src => ⟨rfl, rfl⟩⟩
  simp only [parse_coverage_report_cobertura_all, List.map_map]
  apply List.map_id''
  intro x
  rfl

/-! ## C3 -/

/-- C3: in Cobertura single-file mode the result is the union of the
matching class fragments' classifications with covered winning over
missed: a line is in the covered set iff some matching fragment covers
it, and in the missed set iff some matching fragment misses it and no
matching fragment covers it.  On the spec's §8 document with two
`app.py` fragments the result is covered `{1, 3}`, missed `{2, 4}`,
ratio `1/2`. -/
theorem C3_fragment_merge_covered_wins :
    (∀ (report : List ClassElem) (fn : Chars) (n : Int),
      (n ∈ (parse_coverage_report_cobertura_single report fn).1 ↔
        ∃ c ∈ report, classMatches fn c = true ∧ n ∈ (parse_coverage_data_for_class c).1) ∧
      (n ∈ (parse_coverage_report_cobertura_single report fn).2.1 ↔
        ((∃ c ∈ report, classMatches fn c = true ∧ n ∈ (parse_coverage_data_for_class c).2.1) ∧
          ¬ ∃ c ∈ report, classMatches fn c = true ∧ n ∈ (parse_coverage_data_for_class c).1))) ∧
    parse_coverage_report_cobertura_single coberturaDocAppPy "app.py".data =
      ({1, 3}, {2, 4}, 1/2) := by
  constructor
  · intro report fn n
    constructor
    · simp [parse_coverage_report_cobertura_single, aggregateClasses, List.mem_filter,
        and_assoc]
    · simp [parse_coverage_report_cobertura_single, aggregateClasses, List.mem_filter,
        and_assoc]
  · have h1 : (parse_coverage_report_cobertura_single coberturaDocAppPy "app.py".data).1 =
        ({1, 3} : Finset Int) := by decide
    have h2 : (parse_coverage_report_cobertura_single coberturaDocAppPy "app.py".data).2.1 =
        ({2, 4} : Finset Int) := by decide
    have hm : (({2, 4} : Finset Int) \ {1, 3}).card = 2 := by decide
    refine Prod.ext h1 (Prod.ext h2 ?_)
    show (parse_coverage_report_cobertura_single coberturaDocAppPy "app.py".data).2.2 = 1/2
    norm_num [parse_coverage_report_cobertura_single, aggregateClasses,
      parse_coverage_data_for_class, coberturaDocAppPy, classMatches, charsEndsWith, hm]

/-! ## C4 -/

/-- The relative component list is never empty (the empty relative path
is rendered as `["."]`, as `posixpath.relpath` returns `"."`). -/
theorem relOrDot_ne_nil (rel : List Chars) : relOrDot rel ≠ [] := by
  unfold relOrDot
  split_ifs with h
  · simp
  · intro hc
    rw [hc] at h
    simp at h

/-- The relative component list the diff-cover parser matches against
is never empty. -/
theorem srcRelativeComponents_ne_nil (cwd : List Chars) (p : Chars) :
    srcRelativeComponents cwd p ≠ [] :=
  relOrDot_ne_nil _

/-- Python's `lst[-n:] == src` with `n = len(src) ≥ 1` is exactly
list-suffix. -/
theorem pyLastSlice_eq_iff {α : Type} [DecidableEq α] (src l : List α) (h : src ≠ []) :
    pyLastSlice src.length l = src ↔ src <:+ l := by
  unfold pyLastSlice
  rw [if_neg (by simpa using h)]
  constructor
  · intro he
    rw [← he]
    exact List.drop_suffix _ _
  · rintro ⟨t, rfl⟩
    rw [List.length_append, Nat.add_sub_cancel]
    exact List.drop_left t src

/-- The scan of `src_stats` returns the first matching entry. -/
theorem findRelevantStats_first (srcComps : List Chars) (rec : DiffRecord) (k : Chars) :
    ∀ (pre post : List (Chars × DiffRecord)),
      (∀ p ∈ pre, diffKeyMatches srcComps p.1 = false) →
      diffKeyMatches srcComps k = true →
      findRelevantStats srcComps (pre ++ (k, rec) :: post) = some rec := by
  intro pre
  induction pre with
  | nil =>
    intro post _ hm
    simp [findRelevantStats, hm]
  | cons p rest ih =>
    intro post hpre hm
    rw [List.cons_append, show p = (p.1, p.2) from rfl]
    simp only [findRelevantStats]
    rw [if_neg (by simp [hpre p (by simp)])]
    exact ih post (fun q hq => hpre q (by simp [hq])) hm

/-- C4 counterexample: the candidate key is not compared against the
target path's own components.  With working directory `/x`, target
`/x/app.py` and the single key `z/app.py`, the parser matches the key
(because `os.path.relpath` first rewrites the target to `app.py`), even
though the key's trailing components equal neither the target's raw
split components nor its non-empty components. -/
theorem C4_counterexample :
    parse_json_diff_coverage_report ["x".data] "/x/app.py".data
        [("z/app.py".data, ⟨[1], [2], 50⟩)] = ([1], [2], (50 : ℚ) / 100) ∧
    ¬ (splitChar '/' "/x/app.py".data <:+ splitChar '/' "z/app.py".data) ∧
    ¬ (splitCompsClean "/x/app.py".data <:+ splitChar '/' "z/app.py".data) := by
  exact ⟨rfl, by decide, by decide⟩

/-- C4 (amended): matching is suffix-at-path-component granularity, but
against the components of `os.path.relpath(src_file_path)` (computed
from the working directory), not of the target path as given — for a
relative, already normalised target the two coincide.  A candidate key
matches iff the relative components are a suffix of the key's split
components; the first matching candidate in iteration order is used
with no merging across matches, and the returned ratio is the matched
record's `percent_covered / 100`.  The spec's example holds: target
`a/b/app.py` matches key `src/a/b/app.py` and not `src/xa/b/app.py`. -/
theorem C4_component_suffix_match :
    (∀ (cwd : List Chars) (src : Chars) (key : Chars),
      diffKeyMatches (srcRelativeComponents cwd src) key = true ↔
        srcRelativeComponents cwd src <:+ splitChar '/' key) ∧
    (∀ (cwd : List Chars) (src : Chars) (pre post : List (Chars × DiffRecord))
        (k : Chars) (rec : DiffRecord),
      (∀ p ∈ pre, diffKeyMatches (srcRelativeComponents cwd src) p.1 = false) →
      diffKeyMatches (srcRelativeComponents cwd src) k = true →
      parse_json_diff_coverage_report cwd src (pre ++ (k, rec) :: post) =
        (rec.covered_lines, rec.violation_lines, rec.percent_covered / 100)) ∧
    (srcRelativeComponents ["home".data] "a/b/app.py".data =
        ["a".data, "b".data, "app.py".data] ∧
      diffKeyMatches (srcRelativeComponents ["home".data] "a/b/app.py".data)
          "src/a/b/app.py".data = true ∧
      diffKeyMatches (srcRelativeComponents ["home".data] "a/b/app.py".data)
          "src/xa/b/app.py".data = false) := by
  refine ⟨?_, ?_, by decide, by decide, by decide⟩
  · intro cwd src key
    rw [show diffKeyMatches (srcRelativeComponents cwd src) key =
        decide (pyLastSlice (srcRelativeComponents cwd src).length (splitChar '/' key) =
          srcRelativeComponents cwd src) from rfl,
      decide_eq_true_iff]
    exact pyLastSlice_eq_iff _ _ (srcRelativeComponents_ne_nil cwd src)
  · intro cwd src pre post k rec hpre hm
    simp only [parse_json_diff_coverage_report,
      findRelevantStats_first (srcRelativeComponents cwd src) rec k pre post hpre hm]

/-- C4 witness: the first-match clause applied to a concrete mapping
with one non-matching entry before the matching one. -/
theorem C4_component_suffix_match_witness :
    parse_json_diff_coverage_report ["home".data] "a/b/app.py".data
        [("zzz.py".data, ⟨[9], [8], 10⟩),
          ("src/a/b/app.py".data, ⟨[1], [2], 50⟩)] =
      ([1], [2], (50 : ℚ) / 100) :=
  C4_component_suffix_match.2.1 ["home".data] "a/b/app.py".data
    [("zzz.py".data, ⟨[9], [8], 10⟩)] [] "src/a/b/app.py".data ⟨[1], [2], 50⟩
    (by decide) (by decide)

/-! ## C5 -/

/-- C5: `verify_report_update` raises the fatal assertion, whose
message names the missing path, exactly when the report file does not
exist; when the file exists, `process_coverage_report` always proceeds
to the parse step, and if the modification time is not strictly greater
than the test-command timestamp only the staleness warning is logged. -/
theorem C5_fatal_iff_missing :
    ∀ (onDisk : Bool) (mtime : Int) (path : Chars) (t : Int) (env : ReportEnv)
      (flag : Bool) (ct : Chars) (src : Chars),
      ((verify_report_update onDisk mtime path t).isFatal = true ↔ onDisk = false) ∧
      (onDisk = false →
        verify_report_update onDisk mtime path t =
          .fatal ("Fatal: Coverage report \x22".data ++ path ++
            "\x22 was not generated.".data) ∧
        process_coverage_report onDisk mtime path t env flag ct src =
          .error (.assertionError ("Fatal: Coverage report \x22".data ++ path ++
            "\x22 was not generated.".data))) ∧
      (onDisk = true →
        process_coverage_report onDisk mtime path t env flag ct src =
          parse_coverage_report env flag ct src) ∧
      (onDisk = true → ¬ mtime > t →
        verify_report_update onDisk mtime path t = .warn mtime t) := by
  intro onDisk mtime path t env flag ct src
  cases onDisk with
  | false =>
    refine ⟨by simp [verify_report_update, VerifyResult.isFatal], fun _ => ⟨rfl, rfl⟩,
      fun h => by simp at h, fun h => by simp at h⟩
  | true =>
    by_cases hmt : mtime > t
    · exact ⟨by simp [verify_report_update, hmt, VerifyResult.isFatal],
        fun h => by simp at h,
        fun _ => by simp [process_coverage_report, verify_report_update, hmt],
        fun _ h => absurd hmt h⟩
    · exact ⟨by simp [verify_report_update, hmt, VerifyResult.isFatal],
        fun h => by simp at h,
        fun _ => by simp [process_coverage_report, verify_report_update, hmt],
        fun _ _ => by simp [verify_report_update, hmt]⟩

/-- C5 witness: the fatal branch on a missing report, and the
warn-then-parse behaviour on a stale existing report. -/
theorem C5_fatal_iff_missing_witness :
    verify_report_update false 0 "report.xml".data 0 =
      .fatal ("Fatal: Coverage report \x22".data ++ "report.xml".data ++
        "\x22 was not generated.".data) ∧
    verify_report_update true 5 "report.xml".data 9 = .warn 5 9 ∧
    process_coverage_report true 5 "report.xml".data 9 ⟨[], .ok [], [], []⟩ false
        "cobertura".data "app.py".data =
      parse_coverage_report ⟨[], .ok [], [], []⟩ false "cobertura".data "app.py".data :=
  ⟨((C5_fatal_iff_missing false 0 "report.xml".data 0 ⟨[], .ok [], [], []⟩ false
      "cobertura".data "app.py".data).2.1 rfl).1,
    (C5_fatal_iff_missing true 5 "report.xml".data 9 ⟨[], .ok [], [], []⟩ false
      "cobertura".data "app.py".data).2.2.2 rfl (by decide),
    (C5_fatal_iff_missing true 5 "report.xml".data 9 ⟨[], .ok [], [], []⟩ false
      "cobertura".data "app.py".data).2.2.1 rfl⟩

/-! ## C6 -/

/-- The LCOV parser never raises the dispatcher's configuration
error. -/
theorem lcov_no_valueError (lf : Except Chars (List Chars)) (src : Chars) (msg : Chars) :
    parse_coverage_report_lcov lf src ≠ .error (.valueError msg) := by
  intro h
  rcases lf with e | ls
  · simp [parse_coverage_report_lcov] at h
  · simp only [parse_coverage_report_lcov] at h
    rcases hs : lcovScan (pyBasename src) ls false [] [] with _ | ⟨c, m⟩ <;>
      rw [hs] at h <;> simp at h

/-- Neither does its image under the dispatcher's `lcovOutcome`
wrapping. -/
theorem lcov_mapped_no_valueError (lf : Except Chars (List Chars)) (src : Chars)
    (msg : Chars) :
    (parse_coverage_report_lcov lf src).map lcovOutcome ≠ .error (.valueError msg) := by
  intro h
  rcases hp : parse_coverage_report_lcov lf src with e | v <;> rw [hp] at h
  · rw [show Except.map lcovOutcome (.error e : Except CoverageError (List Int × List Int × ℚ))
        = (.error e : Except CoverageError ParseOutcome) from rfl] at h
    injection h with he
    exact lcov_no_valueError lf src msg (he ▸ hp)
  · exact Except.noConfusion h

/-- C6: `parse_coverage_report` returns the configuration error naming
the offending type string exactly when the coverage type is outside the
supported set of the current feature-flag mode (`cobertura`/`lcov` with
the flag on, plus `diff_cover_json` with the flag off); the error is
the whole result, so no partial data accompanies it. -/
theorem C6_unsupported_type_error :
    ∀ (env : ReportEnv) (flag : Bool) (ct : Chars) (src : Chars),
      parse_coverage_report env flag ct src =
          .error (.valueError ("Unsupported coverage report type: ".data ++ ct)) ↔
        (ct ≠ "cobertura".data ∧ ct ≠ "lcov".data ∧
          (flag = false → ct ≠ "diff_cover_json".data)) := by
  intro env flag ct src
  by_cases h1 : ct = "cobertura".data
  · subst h1
    cases flag <;>
      exact ⟨fun h => absurd h (by simp [parse_coverage_report]),
        fun hc => absurd rfl hc.1⟩
  · by_cases h2 : ct = "lcov".data
    · subst h2
      cases flag <;>
        exact ⟨fun h => absurd h (lcov_mapped_no_valueError env.lcovFile src _),
          fun hc => absurd rfl hc.2.1⟩
    · by_cases h3 : ct = "diff_cover_json".data
      · subst h3
        cases flag <;> simp [parse_coverage_report, h1, h2]
      · cases flag <;> simp [parse_coverage_report, h1, h2, h3]

/-- C6 witness: with the flag on, `diff_cover_json` itself is
unsupported and yields the configuration error naming it. -/
theorem C6_unsupported_type_error_witness :
    parse_coverage_report ⟨[], .ok [], [], []⟩ true "diff_cover_json".data "app.py".data =
      .error (.valueError ("Unsupported coverage report type: ".data ++
        "diff_cover_json".data)) :=
  (C6_unsupported_type_error ⟨[], .ok [], [], []⟩ true "diff_cover_json".data
    "app.py".data).mpr ⟨by decide, by decide, fun h => by simp at h⟩

/-! ## C7 -/

/-- When no line opens a matching record, the LCOV scan stays in the
outer loop and the accumulators are returned unchanged. -/
theorem lcovScan_no_match (fn : Chars) :
    ∀ (file : List Chars) (cov mis : List Int),
      (∀ l ∈ file,
        (charsStartsWith (pyStrip l) "SF:".data && charsEndsWith (pyStrip l) fn) = false) →
      lcovScan fn file false cov mis = some (cov, mis) := by
  intro file
  induction file with
  | nil => intro cov mis _; rfl
  | cons l rest ih =>
    intro cov mis h
    have hl := h l (List.mem_cons_self l rest)
    simp only [lcovScan]
    rw [if_neg (by simp [hl])]
    exact ih cov mis (fun x hx => h x (List.mem_cons_of_mem l hx))

/-- When no key of the mapping matches, the scan of `src_stats` finds
nothing. -/
theorem findRelevantStats_none (srcComps : List Chars) :
    ∀ (l : List (Chars × DiffRecord)),
      (∀ p ∈ l, diffKeyMatches srcComps p.1 = false) →
      findRelevantStats srcComps l = none := by
  intro l
  induction l with
  | nil => intro _; rfl
  | cons p rest ih =>
    intro h
    rw [show p = (p.1, p.2) from rfl]
    simp only [findRelevantStats]
    rw [if_neg (by simp [h p (List.mem_cons_self p rest)])]
    exact ih (fun x hx => h x (List.mem_cons_of_mem p hx))

/-- C7: a well-formed report in which the target file is absent — no
matching Cobertura `<class>`, no `SF:` line ending with the target
basename, no matching `src_stats` key — yields empty covered and missed
collections with ratio 0 and raises nothing. -/
theorem C7_target_absent_soft_zero :
    (∀ (report : List ClassElem) (fn : Chars),
      (∀ c ∈ report, classMatches fn c = false) →
      parse_coverage_report_cobertura_single report fn = (∅, ∅, 0)) ∧
    (∀ (file : List Chars) (src : Chars),
      (∀ l ∈ file,
        (charsStartsWith (pyStrip l) "SF:".data &&
          charsEndsWith (pyStrip l) (pyBasename src)) = false) →
      parse_coverage_report_lcov (.ok file) src = .ok ([], [], 0)) ∧
    (∀ (cwd : List Chars) (src : Chars) (stats : List (Chars × DiffRecord)),
      (∀ p ∈ stats, diffKeyMatches (srcRelativeComponents cwd src) p.1 = false) →
      parse_json_diff_coverage_report cwd src stats = ([], [], 0)) := by
  refine ⟨?_, ?_, ?_⟩
  · intro report fn h
    rw [parse_coverage_report_cobertura_single,
      List.filter_eq_nil_iff.mpr (fun c hc => by simp [h c hc])]
    decide
  · intro file src h
    rw [parse_coverage_report_lcov, lcovScan_no_match (pyBasename src) file [] [] h]
    rfl
  · intro cwd src stats h
    rw [parse_json_diff_coverage_report]
    rw [findRelevantStats_none (srcRelativeComponents cwd src) stats h]

/-- C7 witness: concrete reports of all three formats that do not
mention the target `app.py`. -/
theorem C7_target_absent_soft_zero_witness :
    parse_coverage_report_cobertura_single [⟨some "other.py".data, [⟨1, 1⟩]⟩]
        "app.py".data = (∅, ∅, 0) ∧
    parse_coverage_report_lcov
        (.ok ["TN:test".data, "SF:other.py".data, "DA:1,1".data, "end_of_record".data])
        "app.py".data = .ok ([], [], 0) ∧
    parse_json_diff_coverage_report ["x".data] "app.py".data
        [("z.py".data, ⟨[1], [], 0⟩)] = ([], [], 0) :=
  ⟨C7_target_absent_soft_zero.1 [⟨some "other.py".data, [⟨1, 1⟩]⟩] "app.py".data
      (by decide),
    C7_target_absent_soft_zero.2.1
      ["TN:test".data, "SF:other.py".data, "DA:1,1".data, "end_of_record".data]
      "app.py".data (by decide),
    C7_target_absent_soft_zero.2.2 ["x".data] "app.py".data [("z.py".data, ⟨[1], [], 0⟩)]
      (by decide)⟩

/-! ## C8 -/

/-- C8: when opening or reading the LCOV report fails, the parser emits
exactly one error log naming the file path and the underlying cause and
re-raises the exception; the result is that error, never a
covered/missed/ratio triple.  When the file opens, no error is
logged. -/
theorem C8_lcov_io_error_logged_and_reraised :
    ∀ (path e src : Chars),
      lcov_error_logs path (.error e) =
        ["Error reading file ".data ++ path ++ ": ".data ++ e] ∧
      parse_coverage_report_lcov (.error e) src = .error (.ioError e) ∧
      ∀ (ls : List Chars), lcov_error_logs path (.ok ls) = [] := by
  intro path e src
  exact ⟨rfl, rfl, fun ls => rfl⟩

/-! ## C9 -/

/-- C9: in Cobertura single-file mode the dispatcher reduces the target
to the basename of the source path, and both the Cobertura and LCOV
parsers compare filenames by raw string suffix, so a report filename
merely ending in that basename is treated as a match: with target
`src/app.py`, a class `myapp.py` contributes its line 7 to the covered
set, and an LCOV record `SF:myapp.py` contributes its line 7 to the
missed list. -/
theorem C9_basename_raw_suffix_match :
    (∀ (env : ReportEnv) (src : Chars),
      parse_coverage_report env false "cobertura".data src =
        .ok (coberturaOutcome
          (parse_coverage_report_cobertura env.coberturaClasses (some (pyBasename src))))) ∧
    pyBasename "src/app.py".data = "app.py".data ∧
    charsEndsWith "myapp.py".data "app.py".data = true ∧
    (parse_coverage_report_cobertura_single [⟨some "myapp.py".data, [⟨7, 1⟩]⟩]
        "app.py".data).1 = ({7} : Finset Int) ∧
    Except.map (fun t => (t.1, t.2.1))
        (parse_coverage_report_lcov
          (.ok ["SF:myapp.py".data, "DA:7,0".data, "end_of_record".data])
          "src/app.py".data) =
      .ok (([] : List Int), ([7] : List Int)) :=
  ⟨fun env src => rfl, by decide, by decide, by decide, by rfl⟩

/-! ## C10 -/

/-- C10: the diff-cover parser matches against
`os.path.relpath(src_file_path)`, not the target path as given, so for
an absolute target the outcome depends on the working directory: with
cwd `/x` the target `/x/app.py` becomes `app.py` and matches the key
`app.py`; with cwd `/y` it becomes `../x/app.py` and the same report
yields the empty result. -/
theorem C10_relpath_cwd_dependence :
    srcRelativeComponents ["x".data] "/x/app.py".data = ["app.py".data] ∧
    srcRelativeComponents ["y".data] "/x/app.py".data =
      ["..".data, "x".data, "app.py".data] ∧
    parse_json_diff_coverage_report ["x".data] "/x/app.py".data diffStatsAppPy =
      ([1], [2], (50 : ℚ) / 100) ∧
    parse_json_diff_coverage_report ["y".data] "/x/app.py".data diffStatsAppPy =
      ([], [], 0) :=
  ⟨by decide, by decide, rfl, rfl⟩
